import Mathlib

/-!
Verification of the archive cataloging and integrity layer of the apk-parser
repository (`apkparser/__init__.py`), against its natural-language specification.

The Python class `APK` is embedded shallowly:
* machine bytes are `Nat` values (each `% 256` where it matters),
* the external ZIP structural collaborator (`apkparser/zip/headers`, not under
  `src/`) is modelled from the spec as a finite association list of named
  entries, each with decompressed data, a corrupt-stream flag and the declared
  CRC-32 of the uncompressed data,
* the mutable `files_crc32` dictionary is explicit state threaded through the
  operations, and the observable side effects (entry reads, checksum
  computations, mismatch diagnostics) are recorded in an explicit event list,
* fallible operations return `Except` values, and Python generators are
  embedded as the list of produced items together with an optional error that
  ended the iteration early.
-/

deriving instance DecidableEq for Except

namespace ApkParser

/-! ## Regular-expression embeddings

`get_dex_names` filters names with `re.match(r"^classes(\d*).dex$", name)` and
`is_multidex` counts names with `re.search(r"^classes(\d+)?.dex$", name)`.
Python semantics embedded here, faithfully to the source:

* the dot in both patterns is unescaped, so it matches any single character
  except a newline (no DOTALL flag is passed);
* `$` (without MULTILINE) matches at the very end of the string and also just
  before a trailing newline;
* `re.match` anchors at the start of the string (the leading `^` is redundant);
* `re.search` tries every start position, but since both patterns begin with
  `^` and MULTILINE is not set, the pattern can only succeed at position 0.
-/

/-- Consume a literal character sequence at the head of the input; return the
remainder on success. -/
def dropLit : List Char → List Char → Option (List Char)
  | [], s => some s
  | _ :: _, [] => none
  | c :: cs, x :: xs => if x = c then dropLit cs xs else none

/-- The literal `classes` appearing at the head of both patterns. -/
def clsChars : List Char := ['c', 'l', 'a', 's', 's', 'e', 's']

/-- The tail pattern `.dex$`: one character that is not a newline, then the
literal `dex`, then the end of the string or a single trailing newline. -/
def dotDexTail : List Char → Bool
  | [] => false
  | c :: rest =>
    (c != '\n') && ((rest == ['d', 'e', 'x']) || (rest == ['d', 'e', 'x', '\n']))

/-- The tail pattern `(\d*).dex$` of the `get_dex_names` regex: any run of
decimal digits (with backtracking), then `.dex$`. -/
def tail1 : List Char → Bool
  | [] => false
  | c :: rest => dotDexTail (c :: rest) || (c.isDigit && tail1 rest)

/-- The sub-pattern `\d+` followed by `.dex$`: at least one digit consumed. -/
def plusDigitsTail : List Char → Bool
  | [] => false
  | c :: rest => c.isDigit && (dotDexTail rest || plusDigitsTail rest)

/-- The tail pattern `(\d+)?.dex$` of the `is_multidex` regex: either the
optional group is skipped, or it consumes one or more digits. -/
def tail2 (m : List Char) : Bool :=
  dotDexTail m || plusDigitsTail m

/-- Match `classes` followed by the given tail pattern at the head of the
input. -/
def classesTail (t : List Char → Bool) (s : List Char) : Bool :=
  match dropLit clsChars s with
  | some r => t r
  | none => false

/-- Embeds `re.match(r"^classes(\d*).dex$", name)` truthiness — the predicate
`get_dex_names` filters with. -/
def matchEnum (s : String) : Bool := classesTail tail1 s.toList

/-- One step of `re.search` for a pattern beginning with `^` (no MULTILINE):
`atStart` records whether the current position is position 0, which is the
only position where the `^` assertion can hold. -/
def searchFrom : Bool → List Char → Bool
  | atStart, [] => atStart && classesTail tail2 []
  | atStart, c :: rest => (atStart && classesTail tail2 (c :: rest)) || searchFrom false rest

/-- Embeds `re.search(r"^classes(\d+)?.dex$", name)` truthiness — the predicate
`is_multidex` counts with. -/
def matchSearch (s : String) : Bool := searchFrom true s.toList

/-- Modelled from the spec: the Code-Payload Classifier predicate
`is_primary_payload` of spec section 4.4 — the name is `classes`, optionally
followed by one or more decimal digits, followed by the literal `.dex`,
anchored at both ends. (Used as the specification-side pattern; the
source-side predicates above are compared against it.) -/
def digitsThenDotDex : List Char → Bool
  | [] => false
  | c :: r => ((c :: r) == ['.', 'd', 'e', 'x']) || (c.isDigit && digitsThenDotDex r)

/-- Modelled from the spec: `is_primary_payload` applied to a full name. -/
def specIsPrimaryPayload (s : String) : Bool :=
  match dropLit clsChars s.toList with
  | some r => digitsThenDotDex r
  | none => false

/-! ## The ZIP structural collaborator

`apkparser/zip/headers.ZipEntry` is code of this repository that is not under
`src/`. Modelled from the spec (sections 4.2 and 6): it enumerates entry
names, reads decompressed bytes by name — failing distinctly for an absent
name (Python `KeyError`) and for a corrupt compressed stream (`MalformedEntry`)
— and exposes the per-entry declared checksum
(`crc32_of_uncompressed_data`). -/

/-- Failures of the structural collaborator's extraction routine. -/
inductive ZipReadError where
  | keyError (name : String)
  | malformed (name : String)
deriving DecidableEq

/-- One entry of the structural index: decompressed payload bytes, whether the
compressed stream is corrupt (reading it fails), and the declared CRC-32. -/
structure ZipInfo where
  data : List Nat
  corrupt : Bool
  crc32_of_uncompressed_data : Nat
deriving DecidableEq

/-- The entry index produced by the structural parser, in discovery order. -/
structure ZipFile where
  entries : List (String × ZipInfo)
deriving DecidableEq

/-- `zip.namelist()`: every entry name, in discovery order. -/
def ZipFile.namelist (z : ZipFile) : List String := z.entries.map Prod.fst

/-- `zip.infolist()[name]` as used by `_get_crc32`: the declared CRC-32 of the
named entry (0 as a harmless default for a name that is absent — that case is
unreachable after a successful read). -/
def ZipFile.declaredCrc32 (z : ZipFile) (name : String) : Nat :=
  match z.entries.lookup name with
  | none => 0
  | some i => i.crc32_of_uncompressed_data

/-- `zip.read(name)`: decompressed bytes, `KeyError` when the name is absent,
a distinct failure when the compressed stream is corrupt. -/
def ZipFile.read (z : ZipFile) (name : String) : Except ZipReadError (List Nat) :=
  match z.entries.lookup name with
  | none => .error (.keyError name)
  | some i => if i.corrupt then .error (.malformed name) else .ok i.data

/-! ## The CRC-32 checksum collaborator

The source calls a free function `crc32` (the standard `zlib.crc32`; its
binding is not under `src/`). Modelled from the spec (section 4.3): "compute a
cyclic-redundancy checksum (32-bit) over those bytes" — the standard CRC-32
with the reversed polynomial `0xEDB88320`. -/

/-- One bit-step of the CRC-32 computation. -/
def crc32Round (c : Nat) : Nat :=
  if c % 2 = 1 then 0xEDB88320 ^^^ (c / 2) else c / 2

/-- Fold one input byte into the running CRC-32 state (eight bit-steps). -/
def crc32Byte (c b : Nat) : Nat :=
  crc32Round (crc32Round (crc32Round (crc32Round
    (crc32Round (crc32Round (crc32Round (crc32Round (c ^^^ (b % 256)))))))))

/-- Modelled from the spec: the 32-bit cyclic-redundancy checksum of a byte
sequence (`zlib.crc32`). -/
def crc32 (data : List Nat) : Nat :=
  0xFFFFFFFF ^^^ data.foldl crc32Byte 0xFFFFFFFF

/-! ## The `APK` object -/

/-- The state of an `APK` instance that the verified operations touch: the
immutable entry index built at construction, and the mutable `files_crc32`
checksum cache (name, checksum) in insertion order. -/
structure APK where
  zip : ZipFile
  files_crc32 : List (String × Nat)
deriving DecidableEq

/-- Errors surfaced by `APK.get_file`: the module's own `FileNotPresent`
(raised on `KeyError`), or a collaborator failure propagated unchanged. -/
inductive GetFileError where
  | fileNotPresent (name : String)
  | zipError (e : ZipReadError)
deriving DecidableEq

/-- Observable side effects of the integrity layer: an entry read performed
through the collaborator, a checksum computation, and the structured mismatch
diagnostic `(name, declared, computed)` sent to the logging sink (the sink
itself is outside `src/`; modelled from spec section 6). -/
inductive Event where
  | readEntry (name : String)
  | computeCrc (name : String)
  | crcMismatch (name : String) (declared computed : Nat)
deriving DecidableEq

/-- Recognizer for read events. -/
def Event.isRead : Event → Bool
  | .readEntry _ => true
  | _ => false

/-- Recognizer for checksum-computation events. -/
def Event.isCompute : Event → Bool
  | .computeCrc _ => true
  | _ => false

/-- Recognizer for mismatch diagnostics. -/
def Event.isMismatch : Event → Bool
  | .crcMismatch _ _ _ => true
  | _ => false

/-- `APK.get_files`: the entry names of the archive. -/
def APK.get_files (apk : APK) : List String := apk.zip.namelist

/-- `APK.get_file`: the raw data of the named entry; a `KeyError` from the
collaborator is re-raised as `FileNotPresent(filename)`, any other
collaborator failure propagates unchanged. -/
def APK.get_file (apk : APK) (filename : String) : Except GetFileError (List Nat) :=
  match apk.zip.read filename with
  | .ok b => .ok b
  | .error (.keyError _) => .error (.fileNotPresent filename)
  | .error e => .error (.zipError e)

/-- `APK.get_dex`: the data of `classes.dex`; `FileNotPresent` is caught and
turned into the empty byte string, any other failure propagates. -/
def APK.get_dex (apk : APK) : Except GetFileError (List Nat) :=
  match apk.get_file "classes.dex" with
  | .error (.fileNotPresent _) => .ok []
  | r => r

/-- `APK.get_dex_names`: the names kept by filtering `get_files()` through the
`^classes(\d*).dex$` match predicate. -/
def APK.get_dex_names (apk : APK) : List String :=
  apk.get_files.filter (fun s => matchEnum s)

/-- `APK.is_multidex`: whether more than one name of `get_files()` satisfies
the `^classes(\d+)?.dex$` search predicate. -/
def APK.is_multidex (apk : APK) : Bool :=
  decide (1 < (apk.get_files.filter (fun s => matchSearch s)).length)

/-- `APK._get_crc32`: read the entry (on every call), and if the name is not
yet in `files_crc32`, compute the checksum, store it, and emit the mismatch
diagnostic when it differs from the declared checksum; return the buffer.
Result: (state after the call, events emitted, buffer or propagated error). -/
def _get_crc32 (apk : APK) (filename : String) :
    APK × List Event × Except ZipReadError (List Nat) :=
  match apk.zip.read filename with
  | .error e => (apk, [Event.readEntry filename], .error e)
  | .ok buffer =>
    match apk.files_crc32.lookup filename with
    | some _ => (apk, [Event.readEntry filename], .ok buffer)
    | none =>
      let c := crc32 buffer
      let apk1 : APK := { apk with files_crc32 := apk.files_crc32 ++ [(filename, c)] }
      if c = apk.zip.declaredCrc32 filename then
        (apk1, [Event.readEntry filename, Event.computeCrc filename], .ok buffer)
      else
        (apk1, [Event.readEntry filename, Event.computeCrc filename,
                Event.crcMismatch filename (apk.zip.declaredCrc32 filename) c], .ok buffer)

/-- The loop body of `get_files_crc32`: run `_get_crc32` over the names in
order; an error aborts the loop, keeping the state mutated so far. -/
def crcAllGo : APK → List String → APK × List Event × Option ZipReadError
  | apk, [] => (apk, [], none)
  | apk, n :: ns =>
    match _get_crc32 apk n with
    | (apk1, ev1, Except.error e) => (apk1, ev1, some e)
    | (apk1, ev1, Except.ok _) =>
      match crcAllGo apk1 ns with
      | (apk2, ev2, r2) => (apk2, ev1 ++ ev2, r2)

/-- `APK.get_files_crc32`: if the cache is empty, run `_get_crc32` over every
name of `get_files()`; then return the cache (which the Python returns by
reference). A non-empty cache is returned as-is with no work. -/
def get_files_crc32 (apk : APK) :
    APK × List Event × Except ZipReadError (List (String × Nat)) :=
  if apk.files_crc32 = [] then
    match crcAllGo apk apk.zip.namelist with
    | (apk1, evs, some e) => (apk1, evs, .error e)
    | (apk1, evs, none) => (apk1, evs, .ok apk1.files_crc32)
  else (apk, [], .ok apk.files_crc32)

/-- Modelled from the spec: `get_files_types` is called by
`get_files_information` but is not defined under `src/`; per spec section 4.5
the classification label is a tag derived from the Code-Payload Classifier —
"primary-payload" for names satisfying `is_primary_payload`, "other"
otherwise. -/
def get_files_types (n : String) : String :=
  if specIsPrimaryPayload n then "primary-payload" else "other"

/-- The generator body of `get_files_information`: for each name, evaluate the
classification label and `get_files_crc32()[name]`, yielding tuples until an
exception ends the iteration. Result: (final state, tuples yielded, events,
error that ended the iteration early, if any). A missing dictionary key is a
Python `KeyError`. -/
def infoGo : APK → List String →
    APK × List (String × String × Nat) × List Event × Option ZipReadError
  | apk, [] => (apk, [], [], none)
  | apk, k :: ks =>
    match get_files_crc32 apk with
    | (apk1, ev1, Except.error e) => (apk1, [], ev1, some e)
    | (apk1, ev1, Except.ok d) =>
      match d.lookup k with
      | none => (apk1, [], ev1, some (ZipReadError.keyError k))
      | some c =>
        match infoGo apk1 ks with
        | (apk2, tups, ev2, err) =>
          (apk2, (k, get_files_types k, c) :: tups, ev1 ++ ev2, err)

/-- `APK.get_files_information`: the per-entry report generator. -/
def get_files_information (apk : APK) :
    APK × List (String × String × Nat) × List Event × Option ZipReadError :=
  infoGo apk apk.zip.namelist

/-! ## The Container Opener -/

/-- Modelled from the spec: raw container bytes as seen through the external
structural parser — either it produces an entry index or it fails on the
input (corrupt central directory, truncated trailer, ...). -/
structure Raw where
  parseResult : Option ZipFile
deriving DecidableEq

/-- The module's `BrokenAPKError` (the spec's `MalformedContainer`). -/
inductive BrokenAPKError where
  | brokenAPK
deriving DecidableEq

/-- Modelled from the spec: `headers.ZipEntry.parse` (not under `src/`)
produces the entry index or fails with `MalformedContainer`. -/
def ZipEntry.parse (raw : Raw) : Except BrokenAPKError ZipFile :=
  match raw.parseResult with
  | some z => .ok z
  | none => .error .brokenAPK

/-- `APK.__init__`: delegate to the structural parser; a parse failure
propagates and no `APK` value is produced. A fresh instance has an empty
`files_crc32` cache. -/
def APK.openAPK (raw : Raw) : Except BrokenAPKError APK :=
  match ZipEntry.parse raw with
  | .error e => .error e
  | .ok z => .ok { zip := z, files_crc32 := [] }

/-! ## Concrete archives used as test inputs

Each entry is (name, (decompressed bytes, corrupt flag, declared CRC-32)).
`crc32 [] = 0`, so an empty entry with declared checksum `0` validates
cleanly, and declared checksum `1` is a deliberate mismatch. -/

/-- An entry index whose entries all have empty, valid content. -/
def mkZip (names : List String) : ZipFile :=
  ⟨names.map (fun n => (n, ⟨[], false, 0⟩))⟩

/-- A fresh archive over the given names. -/
def apkOf (names : List String) : APK := ⟨mkZip names, []⟩

/-- Archive with the two root-level payloads `classes.dex`, `classes2.dex`. -/
def apkTwoDex : APK := apkOf ["classes.dex", "classes2.dex"]

/-- Archive with the single payload `classes.dex`. -/
def apkOneDex : APK := apkOf ["classes.dex"]

/-- Archive with a root payload and a nested `lib/classes2.dex`. -/
def apkNested : APK := apkOf ["classes.dex", "lib/classes2.dex"]

/-- Fresh archive with two mundane entries `a` and `b`. -/
def apkAB : APK := apkOf ["a", "b"]

/-- The state reached from `apkAB` by validating only `a` through
`_get_crc32`: its cache is non-empty but does not cover `b`. -/
def apkPartial : APK := (_get_crc32 apkAB "a").1

/-- Fresh archive with the single entry `a`. -/
def apkA : APK := apkOf ["a"]

/-- Archive whose entry `m` has declared checksum 1 but content checksum 0:
a deliberate mismatch. -/
def apkM5 : APK := ⟨⟨[("m", ⟨[], false, 1⟩)]⟩, []⟩

/-- Archive with a readable entry `good` and an entry `bad` whose compressed
stream is corrupt (reading it fails). -/
def apkMix : APK := ⟨⟨[("good", ⟨[], false, 0⟩), ("bad", ⟨[], true, 0⟩)]⟩, []⟩

/-- Fresh archive with the single valid entry `f`. -/
def apkW6 : APK := ⟨⟨[("f", ⟨[], false, 0⟩)]⟩, []⟩

/-- `apkW6` after its whole cache has been populated. -/
def apkW6s : APK := ⟨⟨[("f", ⟨[], false, 0⟩)]⟩, [("f", 0)]⟩

/-- The structural record of the entry `p` of `apkP`. -/
def infoP : ZipInfo := ⟨[7, 8], false, 5⟩

/-- Archive with one readable entry `p` carrying bytes `[7, 8]`. -/
def apkP : APK := ⟨⟨[("p", infoP)]⟩, []⟩

/-- Raw input on which the structural parser fails (corrupted trailer). -/
def rawBad : Raw := ⟨none⟩

/-- Archive whose `classes.dex` entry exists but has a corrupt compressed
stream. -/
def apkCorruptDex : APK := ⟨⟨[("classes.dex", ⟨[1, 2], true, 0⟩)]⟩, []⟩

/-- Archive that has entries but no `classes.dex`. -/
def apkNoDex : APK := apkOf ["resources.arsc"]

/-! ## Helper lemmas -/

/-- A successful association-list lookup survives appending entries. -/
theorem lookup_append_some {β : Type} (l l' : List (String × β)) (n : String) (c : β)
    (h : l.lookup n = some c) : (l ++ l').lookup n = some c := by
  induction l with
  | nil => simp at h
  | cons hd t ih =>
    obtain ⟨k, v⟩ := hd
    rw [List.lookup_cons] at h
    rw [List.cons_append, List.lookup_cons]
    cases hkn : (n == k) with
    | true => rw [hkn] at h; exact h
    | false => rw [hkn] at h; exact ih h

/-- Appending a binding for a name that was absent makes it found. -/
theorem lookup_append_new {β : Type} (l : List (String × β)) (n : String) (c : β)
    (h : l.lookup n = none) : (l ++ [(n, c)]).lookup n = some c := by
  induction l with
  | nil => simp
  | cons hd t ih =>
    obtain ⟨k, v⟩ := hd
    rw [List.lookup_cons] at h
    rw [List.cons_append, List.lookup_cons]
    cases hkn : (n == k) with
    | true => rw [hkn] at h; exact absurd h (by simp)
    | false => rw [hkn] at h; exact ih h

/-- A list with a successful lookup is non-empty. -/
theorem lookup_isSome_ne_nil {β : Type} (l : List (String × β)) (n : String)
    (h : (l.lookup n).isSome = true) : l ≠ [] := by
  intro he
  subst he
  simp at h

/-- A search step that is past position 0 can never satisfy the leading `^`. -/
theorem searchFrom_false : ∀ l : List Char, searchFrom false l = false := by
  intro l
  induction l with
  | nil => rfl
  | cons c r ih => simp [searchFrom, ih]

/-- The tails `(\d*).dex$` and `(\d+)?.dex$` accept the same strings. -/
theorem tail1_eq_tail2 : ∀ m : List Char, tail1 m = tail2 m := by
  intro m
  induction m with
  | nil => rfl
  | cons c r ih => simp [tail1, tail2, plusDigitsTail, ih, Bool.and_or_distrib_left]

/-- The two full patterns agree on a whole input. -/
theorem classesTail_tails (s : List Char) : classesTail tail2 s = classesTail tail1 s := by
  unfold classesTail
  cases h : dropLit clsChars s with
  | none => rfl
  | some r => simp [tail1_eq_tail2]

/-- The search-based multidex predicate coincides with the match-based
enumeration predicate on every name. -/
theorem matchSearch_eq_matchEnum (s : String) : matchSearch s = matchEnum s := by
  unfold matchSearch matchEnum
  cases s.toList with
  | nil => rfl
  | cons c r => simp [searchFrom, searchFrom_false, classesTail_tails]

/-- `_get_crc32` when the collaborator read fails. -/
theorem get_crc32_read_err (apk : APK) (fn : String) (e : ZipReadError)
    (h : apk.zip.read fn = .error e) :
    _get_crc32 apk fn = (apk, [Event.readEntry fn], .error e) := by
  unfold _get_crc32
  rw [h]

/-- `_get_crc32` when the name is already cached: same state, a read event,
no computation. -/
theorem get_crc32_cached (apk : APK) (fn : String) (buf : List Nat) (c : Nat)
    (hr : apk.zip.read fn = .ok buf) (hc : apk.files_crc32.lookup fn = some c) :
    _get_crc32 apk fn = (apk, [Event.readEntry fn], .ok buf) := by
  unfold _get_crc32
  rw [hr, hc]

/-- `_get_crc32` on a first request: the checksum is computed, appended to the
cache, and the mismatch diagnostic is emitted exactly when it differs from the
declared one. -/
theorem get_crc32_fresh (apk : APK) (fn : String) (buf : List Nat)
    (hr : apk.zip.read fn = .ok buf) (hc : apk.files_crc32.lookup fn = none) :
    _get_crc32 apk fn =
      ({ apk with files_crc32 := apk.files_crc32 ++ [(fn, crc32 buf)] },
       (if crc32 buf = apk.zip.declaredCrc32 fn then
          [Event.readEntry fn, Event.computeCrc fn]
        else
          [Event.readEntry fn, Event.computeCrc fn,
           Event.crcMismatch fn (apk.zip.declaredCrc32 fn) (crc32 buf)]),
       .ok buf) := by
  unfold _get_crc32
  rw [hr, hc]
  by_cases hd : crc32 buf = apk.zip.declaredCrc32 fn <;> simp [hd]

/-- A successful `_get_crc32` leaves the requested name cached, extends the
cache monotonically, and does not touch the entry index. -/
theorem get_crc32_ok_covers (apk : APK) (fn : String) (apk1 : APK) (ev : List Event)
    (b : List Nat) (h : _get_crc32 apk fn = (apk1, ev, Except.ok b)) :
    (apk1.files_crc32.lookup fn).isSome = true ∧
    (∀ m c, apk.files_crc32.lookup m = some c → apk1.files_crc32.lookup m = some c) ∧
    apk1.zip = apk.zip := by
  cases hr : apk.zip.read fn with
  | error e => rw [get_crc32_read_err apk fn e hr] at h; simp at h
  | ok buf =>
    cases hc : apk.files_crc32.lookup fn with
    | some c0 =>
      rw [get_crc32_cached apk fn buf c0 hr hc] at h
      simp only [Prod.mk.injEq] at h
      obtain ⟨h1, -, -⟩ := h
      subst h1
      exact ⟨by rw [hc]; rfl, fun m c hm => hm, rfl⟩
    | none =>
      rw [get_crc32_fresh apk fn buf hr hc] at h
      simp only [Prod.mk.injEq] at h
      obtain ⟨h1, -, -⟩ := h
      subst h1
      refine ⟨?_, ?_, rfl⟩
      · rw [show (({ apk with files_crc32 := apk.files_crc32 ++ [(fn, crc32 buf)] } : APK)).files_crc32
            = apk.files_crc32 ++ [(fn, crc32 buf)] from rfl,
          lookup_append_new apk.files_crc32 fn (crc32 buf) hc]
        rfl
      · intro m c hm
        exact lookup_append_some apk.files_crc32 [(fn, crc32 buf)] m c hm

/-- Unfolding `crcAllGo` over a head name whose `_get_crc32` succeeds. -/
theorem crcAllGo_cons_ok (apk : APK) (n : String) (ns : List String) (a1 : APK)
    (e1 : List Event) (b : List Nat) (h1 : _get_crc32 apk n = (a1, e1, Except.ok b)) :
    crcAllGo apk (n :: ns) =
      ((crcAllGo a1 ns).1, e1 ++ (crcAllGo a1 ns).2.1, (crcAllGo a1 ns).2.2) := by
  simp only [crcAllGo]
  rw [h1]

/-- Unfolding `crcAllGo` over a head name whose `_get_crc32` fails: the loop
aborts, keeping the state mutated so far. -/
theorem crcAllGo_cons_err (apk : APK) (n : String) (ns : List String) (a1 : APK)
    (e1 : List Event) (e : ZipReadError)
    (h1 : _get_crc32 apk n = (a1, e1, Except.error e)) :
    crcAllGo apk (n :: ns) = (a1, e1, some e) := by
  simp only [crcAllGo]
  rw [h1]

/-- A successful pass of the `get_files_crc32` loop caches every processed
name, extends the cache monotonically, and does not touch the entry index. -/
theorem crcAllGo_props : ∀ (names : List String) (apk apk1 : APK) (ev : List Event),
    crcAllGo apk names = (apk1, ev, none) →
    (∀ m c, apk.files_crc32.lookup m = some c → apk1.files_crc32.lookup m = some c) ∧
    (∀ n ∈ names, (apk1.files_crc32.lookup n).isSome = true) ∧
    apk1.zip = apk.zip := by
  intro names
  induction names with
  | nil =>
    intro apk apk1 ev h
    simp only [crcAllGo, Prod.mk.injEq] at h
    obtain ⟨h1, -⟩ := h
    subst h1
    exact ⟨fun m c hm => hm, by simp, rfl⟩
  | cons n ns ih =>
    intro apk apk1 ev h
    rcases h1 : _get_crc32 apk n with ⟨a1, e1, r⟩
    cases r with
    | error e =>
      rw [crcAllGo_cons_err apk n ns a1 e1 e h1] at h
      simp at h
    | ok b =>
      rw [crcAllGo_cons_ok apk n ns a1 e1 b h1] at h
      rcases h2 : crcAllGo a1 ns with ⟨a2, e2, r2⟩
      rw [h2] at h
      simp only [Prod.mk.injEq] at h
      obtain ⟨hA, -, hR⟩ := h
      subst hA
      subst hR
      obtain ⟨hcov1, hmono1, hzip1⟩ := get_crc32_ok_covers apk n a1 e1 b h1
      obtain ⟨hmono2, hcov2, hzip2⟩ := ih a1 a2 e2 h2
      refine ⟨fun m c hm => hmono2 m c (hmono1 m c hm), ?_, hzip2.trans hzip1⟩
      intro m hm
      rcases List.mem_cons.mp hm with h | h
      · subst h
        obtain ⟨c, hc⟩ := Option.isSome_iff_exists.mp hcov1
        rw [hmono2 m c hc]
        rfl
      · exact hcov2 m h

/-- `get_files_crc32` with a non-empty cache returns it as-is with no work. -/
theorem get_files_crc32_nonempty (apk : APK) (h : apk.files_crc32 ≠ []) :
    get_files_crc32 apk = (apk, [], Except.ok apk.files_crc32) := by
  unfold get_files_crc32
  rw [if_neg h]

/-- Unfolding one successful step of the report generator. -/
theorem infoGo_cons_ok (apk : APK) (k : String) (ks : List String) (apk1 : APK)
    (ev1 : List Event) (d : List (String × Nat)) (c : Nat)
    (h1 : get_files_crc32 apk = (apk1, ev1, Except.ok d)) (h2 : d.lookup k = some c) :
    infoGo apk (k :: ks) =
      ((infoGo apk1 ks).1, (k, get_files_types k, c) :: (infoGo apk1 ks).2.1,
       ev1 ++ (infoGo apk1 ks).2.2.1, (infoGo apk1 ks).2.2.2) := by
  simp only [infoGo]
  rw [h1]
  simp only [h2]

/-- Once the cache equals a fixed dictionary covering the remaining names,
the report generator yields one correct tuple per name without further state
changes, events, or failures. -/
theorem infoGo_stable (d : List (String × Nat)) (hd : d ≠ []) :
    ∀ (ks : List String) (apk1 : APK), apk1.files_crc32 = d →
      (∀ n ∈ ks, (d.lookup n).isSome = true) →
      ∃ tups, infoGo apk1 ks = (apk1, tups, [], none) ∧
        tups.map Prod.fst = ks ∧
        ∀ x ∈ tups, x.2.1 = get_files_types x.1 ∧ d.lookup x.1 = some x.2.2 := by
  intro ks
  induction ks with
  | nil =>
    intro apk1 hc hcov
    exact ⟨[], rfl, rfl, by simp⟩
  | cons k ks ih =>
    intro apk1 hc hcov
    have hne : apk1.files_crc32 ≠ [] := by rw [hc]; exact hd
    have h1 := get_files_crc32_nonempty apk1 hne
    rw [hc] at h1
    obtain ⟨c, hkc⟩ := Option.isSome_iff_exists.mp (hcov k (by simp))
    obtain ⟨tups, htup, hmap, hprop⟩ := ih apk1 hc (fun n hn => hcov n (by simp [hn]))
    refine ⟨(k, get_files_types k, c) :: tups, ?_, by simp [hmap], ?_⟩
    · rw [infoGo_cons_ok apk1 k ks apk1 [] d c h1 hkc, htup]
      simp
    · intro x hx
      rcases List.mem_cons.mp hx with h | h
      · subst h
        exact ⟨rfl, hkc⟩
      · exact hprop x h

/-- Case analysis of `get_file`: absent names fail with `FileNotPresent`,
readable entries return their decompressed bytes, corrupt entries propagate
the collaborator's distinct failure. -/
theorem get_file_spec (apk : APK) (n : String) :
    (apk.zip.entries.lookup n = none →
      apk.get_file n = .error (GetFileError.fileNotPresent n)) ∧
    (∀ i : ZipInfo, apk.zip.entries.lookup n = some i → i.corrupt = false →
      apk.get_file n = .ok i.data) ∧
    (∀ i : ZipInfo, apk.zip.entries.lookup n = some i → i.corrupt = true →
      apk.get_file n = .error (GetFileError.zipError (ZipReadError.malformed n))) := by
  refine ⟨?_, ?_, ?_⟩
  · intro h
    simp [APK.get_file, ZipFile.read, h]
  · intro i hi hcorr
    simp [APK.get_file, ZipFile.read, hi, hcorr]
  · intro i hi hcorr
    simp [APK.get_file, ZipFile.read, hi, hcorr]

/-! ## The claims -/

/-- Claim C1, counterexample: an archive whose entries are exactly
`classes.dex` and `lib/classes2.dex` — the claim asserts
`has_multiple_payloads` is true for it, but `is_multidex` returns false: the
`^`-anchored pattern searched without MULTILINE never accepts the nested
name. -/
theorem c1_counterexample :
    apkNested.get_files = ["classes.dex", "lib/classes2.dex"] ∧
    APK.is_multidex apkNested = false := by decide

/-- Claim C1 (amended): `is_multidex` is true iff two or more entry names
satisfy its search predicate, which coincides with the root-anchored
enumeration predicate — nested names do not count; `{classes.dex,
classes2.dex}` gives true, `{classes.dex}` alone gives false, and
`{classes.dex, lib/classes2.dex}` gives false. -/
theorem c1_multidex_root_anchored :
    (∀ apk : APK, apk.is_multidex =
      decide (2 ≤ List.countP (fun s => matchEnum s) apk.get_files)) ∧
    APK.is_multidex apkTwoDex = true ∧
    APK.is_multidex apkOneDex = false ∧
    APK.is_multidex apkNested = false := by
  refine ⟨?_, by decide, by decide, by decide⟩
  intro apk
  unfold APK.is_multidex
  rw [List.countP_eq_length_filter,
    List.filter_congr (fun x _ => matchSearch_eq_matchEnum x)]
  rfl

/-- Claim C2: evaluation of the predicate applied by `get_dex_names` at the
claimed examples, and at the input `classesAdex` on which the claimed
characterisation fails — the unescaped dot of `^classes(\d*).dex$` accepts
it, while the documented pattern (literal `.dex`) rejects it. -/
theorem c2_unescaped_dot :
    matchEnum "classesAdex" = true ∧
    specIsPrimaryPayload "classesAdex" = false ∧
    matchEnum "classes.dex" = true ∧
    matchEnum "classes2.dex" = true ∧
    matchEnum "classes.DEX" = false ∧
    matchEnum "lib/classes2.dex" = false ∧
    matchEnum "classesX.dex" = false := by decide

/-- Claim C9: the predicate used by `get_dex_names` (regex
`^classes(\d*).dex$` applied with `match`) accepts a name iff the predicate
used by `is_multidex` (regex `^classes(\d+)?.dex$` applied with `search`)
accepts it — the two are extensionally equal on all names. -/
theorem c9_patterns_agree (s : String) : matchEnum s = matchSearch s :=
  (matchSearch_eq_matchEnum s).symm

/-- Claim C7: `get_file` returns the decompressed bytes of a readable entry,
fails with `FileNotPresent` exactly for absent names, and propagates the
distinct malformed-entry failure for corrupt entries. -/
theorem c7_get_file_errors (apk : APK) (n : String) :
    (apk.zip.entries.lookup n = none →
      apk.get_file n = .error (GetFileError.fileNotPresent n)) ∧
    (∀ i : ZipInfo, apk.zip.entries.lookup n = some i → i.corrupt = false →
      apk.get_file n = .ok i.data) ∧
    (∀ i : ZipInfo, apk.zip.entries.lookup n = some i → i.corrupt = true →
      apk.get_file n = .error (GetFileError.zipError (ZipReadError.malformed n))) ∧
    GetFileError.fileNotPresent n ≠ GetFileError.zipError (ZipReadError.malformed n) := by
  obtain ⟨h1, h2, h3⟩ := get_file_spec apk n
  exact ⟨h1, h2, h3, by simp⟩

/-- Claim C7, witness at the concrete archive `apkP`. -/
theorem c7_witness :
    (apkP.zip.entries.lookup "p" = some infoP ∧ infoP.corrupt = false) ∧
    APK.get_file apkP "p" = .ok infoP.data :=
  ⟨⟨by decide, by decide⟩,
    (c7_get_file_errors apkP "p").2.1 infoP (by decide) (by decide)⟩

/-- Claim C8: when the structural parser fails on the raw input, opening
fails with `BrokenAPKError` and no `APK` value — partial or otherwise — is
produced; when it succeeds, the `APK` holds the parsed index and an empty
checksum cache. -/
theorem c8_open_atomic (raw : Raw) :
    (raw.parseResult = none →
      APK.openAPK raw = .error BrokenAPKError.brokenAPK ∧
      ∀ a : APK, APK.openAPK raw ≠ .ok a) ∧
    (∀ z : ZipFile, raw.parseResult = some z →
      APK.openAPK raw = .ok { zip := z, files_crc32 := [] }) := by
  constructor
  · intro h
    have hfail : APK.openAPK raw = .error BrokenAPKError.brokenAPK := by
      unfold APK.openAPK ZipEntry.parse
      rw [h]
    refine ⟨hfail, fun a hc => ?_⟩
    rw [hfail] at hc
    exact Except.noConfusion hc
  · intro z h
    unfold APK.openAPK ZipEntry.parse
    rw [h]

/-- Claim C8, witness at the concrete failing raw input `rawBad`. -/
theorem c8_witness :
    rawBad.parseResult = none ∧
    APK.openAPK rawBad = .error BrokenAPKError.brokenAPK :=
  ⟨rfl, ((c8_open_atomic rawBad).1 rfl).1⟩

/-- Claim C10, counterexample: an archive that does contain `classes.dex`
but whose compressed stream is corrupt — `get_dex` does not return the
entry's bytes; the malformed-entry failure propagates (only
`FileNotPresent` is caught). -/
theorem c10_counterexample :
    (apkCorruptDex.zip.entries.lookup "classes.dex").isSome = true ∧
    APK.get_dex apkCorruptDex =
      .error (GetFileError.zipError (ZipReadError.malformed "classes.dex")) := by decide

/-- Claim C10 (amended): if `classes.dex` is absent, `get_dex` returns the
empty byte string instead of raising `FileNotPresent`; if it is present and
readable, `get_dex` returns its decompressed bytes; if it is present but
corrupt, the malformed-entry failure propagates. -/
theorem c10_get_dex (apk : APK) :
    (apk.zip.entries.lookup "classes.dex" = none → apk.get_dex = .ok []) ∧
    (∀ i : ZipInfo, apk.zip.entries.lookup "classes.dex" = some i →
      i.corrupt = false → apk.get_dex = .ok i.data) ∧
    (∀ i : ZipInfo, apk.zip.entries.lookup "classes.dex" = some i →
      i.corrupt = true →
      apk.get_dex = .error (GetFileError.zipError (ZipReadError.malformed "classes.dex"))) := by
  obtain ⟨h1, h2, h3⟩ := get_file_spec apk "classes.dex"
  refine ⟨?_, ?_, ?_⟩
  · intro h
    unfold APK.get_dex
    rw [h1 h]
  · intro i hi hcorr
    unfold APK.get_dex
    rw [h2 i hi hcorr]
  · intro i hi hcorr
    unfold APK.get_dex
    rw [h3 i hi hcorr]

/-- Claim C10, witness at the concrete archive `apkNoDex` lacking
`classes.dex`. -/
theorem c10_witness :
    apkNoDex.zip.entries.lookup "classes.dex" = none ∧
    APK.get_dex apkNoDex = .ok [] :=
  ⟨by decide, (c10_get_dex apkNoDex).1 (by decide)⟩

/-- Claim C3, counterexample: from the fresh archive over `{a, b}`, validating
only `a` through `_get_crc32` leaves a non-empty cache that does not cover
`b`; `get_files_crc32` then returns that partial mapping as-is — it lacks an
entry for `b` although `b` is in the name list, contradicting the claimed
full coverage. -/
theorem c3_counterexample :
    apkPartial.files_crc32 = [("a", 0)] ∧
    "b" ∈ apkPartial.zip.namelist ∧
    get_files_crc32 apkPartial = (apkPartial, [], Except.ok [("a", 0)]) ∧
    List.lookup "b" [(("a" : String), (0 : Nat))] = none := by decide

/-- Claim C3 (amended): when the cache is non-empty, `get_files_crc32`
returns it unchanged with no validation at all — even a partial cache; when
the cache is empty and the pass succeeds, the returned mapping is the final
cache and covers every name of `get_files()`, and a second call returns the
same mapping while performing no work (no events). -/
theorem c3_batch_idempotent (apk : APK) :
    (apk.files_crc32 ≠ [] →
      get_files_crc32 apk = (apk, [], Except.ok apk.files_crc32)) ∧
    (∀ (apk1 : APK) (ev : List Event) (d : List (String × Nat)),
      apk.files_crc32 = [] →
      get_files_crc32 apk = (apk1, ev, Except.ok d) →
      d = apk1.files_crc32 ∧
      (∀ n ∈ apk.get_files, (d.lookup n).isSome = true) ∧
      get_files_crc32 apk1 = (apk1, [], Except.ok d)) := by
  refine ⟨fun h => get_files_crc32_nonempty apk h, ?_⟩
  intro apk1 ev d hempty hok
  unfold get_files_crc32 at hok
  rw [if_pos hempty] at hok
  rcases h1 : crcAllGo apk apk.zip.namelist with ⟨a, e, err⟩
  rw [h1] at hok
  cases err with
  | some e2 => simp at hok
  | none =>
    simp only [Prod.mk.injEq, Except.ok.injEq] at hok
    obtain ⟨hA, hE, hD⟩ := hok
    obtain ⟨hmono, hcov, hzip⟩ := crcAllGo_props apk.zip.namelist apk a e h1
    subst hA
    subst hD
    refine ⟨rfl, fun n hn => hcov n hn, ?_⟩
    cases hn : apk.zip.namelist with
    | nil =>
      rw [hn] at h1
      simp only [crcAllGo, Prod.mk.injEq] at h1
      obtain ⟨h1a, -⟩ := h1
      subst h1a
      unfold get_files_crc32
      rw [if_pos hempty, hn]
      simp [crcAllGo]
    | cons m ms =>
      have hcovm := hcov m (by rw [hn]; exact List.mem_cons_self m ms)
      exact get_files_crc32_nonempty a (lookup_isSome_ne_nil _ m hcovm)

/-- Claim C3, witness: the partial-cache archive is returned as-is. -/
theorem c3_witness :
    apkPartial.files_crc32 ≠ [] ∧
    get_files_crc32 apkPartial = (apkPartial, [], Except.ok apkPartial.files_crc32) :=
  ⟨by decide, (c3_batch_idempotent apkPartial).1 (by decide)⟩

/-- Claim C4, counterexample: on the concrete archive `apkA`, two consecutive
`_get_crc32` requests for the entry `a` trigger the underlying entry read
twice (one read event per call), not exactly once as claimed: the Python
performs `self.zip.read(filename)` before consulting the cache. -/
theorem c4_counterexample :
    (match _get_crc32 apkA "a" with
     | (apk1, ev1, _) =>
       match _get_crc32 apk1 "a" with
       | (_, ev2, _) => List.countP Event.isRead (ev1 ++ ev2)) = 2 := by decide

/-- Claim C4 (amended): a second request for the same name returns a value
bit-identical to the first, the cached checksum is never overwritten (the
state is unchanged), and the checksum computation happens exactly once
across both requests — but the underlying entry read is performed again on
the second request (one read event per call). -/
theorem c4_cache_no_overwrite (apk : APK) (n : String) (data : List Nat)
    (hread : apk.zip.read n = Except.ok data)
    (hmiss : apk.files_crc32.lookup n = none) :
    ∃ apk1 ev1,
      _get_crc32 apk n = (apk1, ev1, Except.ok data) ∧
      apk1.files_crc32.lookup n = some (crc32 data) ∧
      List.countP Event.isCompute ev1 = 1 ∧
      List.countP Event.isRead ev1 = 1 ∧
      _get_crc32 apk1 n = (apk1, [Event.readEntry n], Except.ok data) := by
  refine ⟨{ apk with files_crc32 := apk.files_crc32 ++ [(n, crc32 data)] },
    (if crc32 data = apk.zip.declaredCrc32 n then
       [Event.readEntry n, Event.computeCrc n]
     else
       [Event.readEntry n, Event.computeCrc n,
        Event.crcMismatch n (apk.zip.declaredCrc32 n) (crc32 data)]),
    get_crc32_fresh apk n data hread hmiss, ?_, ?_, ?_, ?_⟩
  · exact lookup_append_new _ n _ hmiss
  · by_cases hd : crc32 data = apk.zip.declaredCrc32 n <;>
      simp [hd, Event.isCompute, List.countP, List.countP.go]
  · by_cases hd : crc32 data = apk.zip.declaredCrc32 n <;>
      simp [hd, Event.isRead, List.countP, List.countP.go]
  · exact get_crc32_cached _ n data (crc32 data) hread (lookup_append_new _ n _ hmiss)

/-- Claim C4, witness at the concrete archive `apkA`. -/
theorem c4_witness :
    (apkA.zip.read "a" = Except.ok [] ∧ apkA.files_crc32.lookup "a" = none) ∧
    (∃ apk1 ev1,
      _get_crc32 apkA "a" = (apk1, ev1, Except.ok []) ∧
      apk1.files_crc32.lookup "a" = some (crc32 []) ∧
      List.countP Event.isCompute ev1 = 1 ∧
      List.countP Event.isRead ev1 = 1 ∧
      _get_crc32 apk1 "a" = (apk1, [Event.readEntry "a"], Except.ok [])) :=
  ⟨⟨by decide, rfl⟩, c4_cache_no_overwrite apkA "a" [] (by decide) rfl⟩

/-- Claim C5: on the first request for an entry whose declared checksum
differs from the checksum computed over its decompressed bytes, exactly one
mismatch diagnostic carrying `(name, declared, computed)` is emitted, the
computed (not the declared) value is stored and is what the checksum mapping
returns, and a subsequent request for the same name emits no further
diagnostics. -/
theorem c5_mismatch_diag (apk : APK) (n : String) (data : List Nat)
    (hread : apk.zip.read n = Except.ok data)
    (hmiss : apk.files_crc32.lookup n = none)
    (hdiff : crc32 data ≠ apk.zip.declaredCrc32 n) :
    ∃ apk1 : APK,
      _get_crc32 apk n =
        (apk1, [Event.readEntry n, Event.computeCrc n,
                Event.crcMismatch n (apk.zip.declaredCrc32 n) (crc32 data)],
         Except.ok data) ∧
      apk1.files_crc32.lookup n = some (crc32 data) ∧
      get_files_crc32 apk1 = (apk1, [], Except.ok apk1.files_crc32) ∧
      _get_crc32 apk1 n = (apk1, [Event.readEntry n], Except.ok data) := by
  refine ⟨{ apk with files_crc32 := apk.files_crc32 ++ [(n, crc32 data)] },
    ?_, ?_, ?_, ?_⟩
  · rw [get_crc32_fresh apk n data hread hmiss, if_neg hdiff]
  · exact lookup_append_new _ n _ hmiss
  · exact get_files_crc32_nonempty _ (by simp)
  · exact get_crc32_cached _ n data (crc32 data) hread (lookup_append_new _ n _ hmiss)

/-- Claim C5, witness at the concrete archive `apkM5`, whose entry `m`
declares checksum 1 while its content has checksum 0. -/
theorem c5_witness :
    (apkM5.zip.read "m" = Except.ok [] ∧
      apkM5.files_crc32.lookup "m" = none ∧
      crc32 [] ≠ apkM5.zip.declaredCrc32 "m") ∧
    (∃ apk1 : APK,
      _get_crc32 apkM5 "m" =
        (apk1, [Event.readEntry "m", Event.computeCrc "m",
                Event.crcMismatch "m" (apkM5.zip.declaredCrc32 "m") (crc32 [])],
         Except.ok []) ∧
      apk1.files_crc32.lookup "m" = some (crc32 []) ∧
      get_files_crc32 apk1 = (apk1, [], Except.ok apk1.files_crc32) ∧
      _get_crc32 apk1 "m" = (apk1, [Event.readEntry "m"], Except.ok [])) :=
  ⟨⟨by decide, rfl, by decide⟩,
    c5_mismatch_diag apkM5 "m" [] (by decide) rfl (by decide)⟩

/-- Claim C6, counterexample: on the archive `apkMix`, whose entry `bad` has
a corrupt compressed stream, `get_files_information` fails as a whole: the
iteration yields zero tuples and ends with the propagated malformed-entry
failure — no per-entry placeholder is substituted and the tuple for the
readable entry `good` is never produced. -/
theorem c6_counterexample :
    apkMix.get_files = ["good", "bad"] ∧
    (get_files_information apkMix).2.1 = [] ∧
    (get_files_information apkMix).2.2.2 = some (ZipReadError.malformed "bad") := by
  decide

/-- Claim C6 (amended): `get_files_information` yields one
`(name, classification label, checksum)` tuple per name of `get_files()`
when every delegated checksum computation succeeds (starting from an empty
cache); a failure of the delegated computation is not caught per-entry — it
aborts the whole iteration, as the counterexample shows. -/
theorem c6_report_when_ok (apk : APK) (apk1 : APK) (ev : List Event)
    (d : List (String × Nat)) (hempty : apk.files_crc32 = [])
    (hok : get_files_crc32 apk = (apk1, ev, Except.ok d)) :
    ∃ tups evs,
      get_files_information apk = (apk1, tups, evs, none) ∧
      tups.map Prod.fst = apk.get_files ∧
      ∀ x ∈ tups, x.2.1 = get_files_types x.1 ∧ d.lookup x.1 = some x.2.2 := by
  have hok' := hok
  unfold get_files_crc32 at hok'
  rw [if_pos hempty] at hok'
  rcases h1 : crcAllGo apk apk.zip.namelist with ⟨a, e, err⟩
  rw [h1] at hok'
  cases err with
  | some e2 => simp at hok'
  | none =>
    simp only [Prod.mk.injEq, Except.ok.injEq] at hok'
    obtain ⟨hA, hE, hD⟩ := hok'
    obtain ⟨hmono, hcov, hzip⟩ := crcAllGo_props apk.zip.namelist apk a e h1
    subst hA
    subst hD
    subst hE
    unfold get_files_information
    cases hn : apk.zip.namelist with
    | nil =>
      rw [hn] at h1
      simp only [crcAllGo, Prod.mk.injEq] at h1
      obtain ⟨h1a, -⟩ := h1
      subst h1a
      exact ⟨[], [], rfl, by simp [APK.get_files, hn], by simp⟩
    | cons k ks =>
      have hkmem : k ∈ apk.zip.namelist := by rw [hn]; exact List.mem_cons_self k ks
      have hd_ne : a.files_crc32 ≠ [] := lookup_isSome_ne_nil _ k (hcov k hkmem)
      obtain ⟨c, hkc⟩ := Option.isSome_iff_exists.mp (hcov k hkmem)
      obtain ⟨tups, htup, hmap, hprop⟩ :=
        infoGo_stable a.files_crc32 hd_ne ks a rfl
          (fun m hm => hcov m (by rw [hn]; exact List.mem_cons_of_mem k hm))
      refine ⟨(k, get_files_types k, c) :: tups, e, ?_, ?_, ?_⟩
      · rw [infoGo_cons_ok apk k ks a e a.files_crc32 c hok hkc, htup]
        simp
      · simp [APK.get_files, hn, hmap]
      · intro x hx
        rcases List.mem_cons.mp hx with h | h
        · subst h
          exact ⟨rfl, hkc⟩
        · exact hprop x h

/-- Claim C6, witness at the concrete single-entry archive `apkW6`. -/
theorem c6_witness :
    (apkW6.files_crc32 = [] ∧
      get_files_crc32 apkW6 =
        (apkW6s, [Event.readEntry "f", Event.computeCrc "f"], Except.ok [("f", 0)])) ∧
    (∃ tups evs,
      get_files_information apkW6 = (apkW6s, tups, evs, none) ∧
      tups.map Prod.fst = apkW6.get_files ∧
      ∀ x ∈ tups, x.2.1 = get_files_types x.1 ∧
        List.lookup x.1 [(("f" : String), (0 : Nat))] = some x.2.2) :=
  ⟨⟨rfl, by decide⟩,
    c6_report_when_ok apkW6 apkW6s [Event.readEntry "f", Event.computeCrc "f"]
      [("f", 0)] rfl (by decide)⟩

end ApkParser
